import Mathlib

/-!
# Verification of the query translator and result presenter of `Technical_tv.py`

This file gives a shallow embedding of the single source file
`src/Technical_tv.py` of the repository, an Indian-market technical stock
screener built on `tradingview_screener` (query construction), `pandas`
(result shaping) and `streamlit` (UI).

The embedding covers:

* the sidebar state captured at scan time (`FilterModel`), whose enumerated
  selectors range over the exact option strings of the `st.sidebar.selectbox`
  calls;
* the `PRESETS` dictionary and the Python truthiness test `if preset:`;
* the query built by `run_technical_scan` (lines 85–149): base `.where(...)`
  clauses, the conditional EMA / ADX-direction / Bollinger / Stochastic
  clauses, `.limit`, and `set_property("preset", ...)`;
* the error handling of `run_technical_scan` (lines 151–159);
* the output block guarded by `run_scan` (lines 164–187): the `df.empty`
  short-circuit, the displayed table `df.sort_values("ADX", ascending=False)`,
  the Excel serialization `df.to_excel(writer, index=False,
  sheet_name="Technical")` and the download button.

External library calls are embedded by their operational behaviour:
`tradingview_screener.Column` comparisons produce predicate records with the
library's operation tags (`equal`, `egreater`, `eless`, `greater`, `less`,
`has`); `pandas.DataFrame.sort_values(by, ascending=False)` reverses the
row collection, computes the ascending argsort of the reversed key column,
and reverses the resulting permutation (`pandas/core/sorting.py`,
`nargsort`: `non_nans = non_nans[::-1]; non_nan_idx = non_nan_idx[::-1];
... indexer = indexer[::-1]`), i.e. it returns
`reverse (ascending-sort (reverse rows))`; the source relies on the
default `kind='quicksort'`, which pandas documents as not stable, so the
program leaves the relative order of tied keys unspecified — the
executable embedding picks the stable-argsort representative of that
unspecified order (see `sort_values`), and no claim proved here depends
on the modelled tie order; `DataFrame.to_excel(..., index=False,
header=True)` writes one sheet
holding a header row of the column labels followed by the data rows in frame
order.
-/

namespace TechnicalTV

/-- Operation tag of a `tradingview_screener` predicate, as produced by the
`Column` comparison operators used in the source: `==` → `equal`,
`>=` → `egreater`, `<=` → `eless`, `>` → `greater`, `<` → `less`,
`.has(...)` → `has`. -/
inductive Op where
  | equal
  | egreater
  | eless
  | greater
  | less
  | has
  deriving DecidableEq

/-- Right-hand operand of a predicate clause: a numeric constant, a string
constant, a boolean constant, another column, or a column scaled by a
constant factor (as in `col("BB.lower") * 1.02`). -/
inductive Operand where
  | num (q : ℚ)
  | str (s : String)
  | boolean (b : Bool)
  | field (name : String)
  | fieldMul (name : String) (factor : ℚ)
  deriving DecidableEq

/-- One predicate clause of the conjunction sent to the provider:
`left ⟨op⟩ right`. -/
structure Clause where
  left : String
  op : Op
  right : Operand
  deriving DecidableEq

/-- The provider query assembled by `run_technical_scan`: market universe,
requested fields, conjunction of predicate clauses (in construction order),
row cap, and extra properties set with `set_property`. -/
structure Query where
  markets : List String
  select : List String
  filters : List Clause
  limit : ℚ
  properties : List (String × String)
  deriving DecidableEq

/-- Sidebar state at the moment the user presses "Run Screener".  Numeric
fields are rationals (the sliders produce integers, a subset); the three
selector fields hold the exact option strings of the corresponding
`st.sidebar.selectbox` calls. -/
structure FilterModel where
  min_rsi : ℚ
  max_rsi : ℚ
  adx_min : ℚ
  trend_direction : String
  ema20 : Bool
  ema50 : Bool
  ema200 : Bool
  bb_condition : String
  stoch_mode : String
  min_volume : ℚ
  limit : ℚ
  deriving DecidableEq

/-- The options of the "Trend Direction" selectbox (line 47). -/
def trendOptions : List String :=
  ["Any", "Bullish (+DI > -DI)", "Bearish (-DI > +DI)"]

/-- The options of the "Bollinger Condition" selectbox (line 60). -/
def bbOptions : List String :=
  ["Any", "Near Lower Band", "Above Upper Band"]

/-- The options of the "Stochastic Mode" selectbox (line 67). -/
def stochOptions : List String :=
  ["Any", "Oversold (<20)", "Overbought (>80)", "Bullish (%K > %D)", "Bearish (%K < %D)"]

/-- The `PRESETS` dictionary (lines 23–29): label shown in the sidebar,
value passed to `run_technical_scan`. -/
def PRESETS : List (String × Option String) :=
  [("None", none),
   ("Top Gainers", some "gainers"),
   ("Biggest Losers", some "losers"),
   ("Most Active", some "most_active"),
   ("Unusual Volume", some "unusual_volume")]

/-- `preset_value = PRESETS[preset_label]` (line 33); the selectbox restricts
the label to the dictionary keys. -/
def preset_value (label : String) : Option String :=
  (PRESETS.lookup label).getD none

/-- `q = q.where(c)`: append one clause to the conjunction. -/
def addFilter (q : Query) (c : Clause) : Query :=
  { q with filters := q.filters ++ [c] }

/-- Lines 85–116: the initial query — market "india", the fixed field list,
the seven unconditional `.where` clauses (in source order), and the row
limit. -/
def baseQuery (f : FilterModel) : Query :=
  { markets := ["india"],
    select := ["name", "sector", "close", "change", "volume", "RSI", "EMA20",
      "EMA50", "EMA200", "BB.upper", "BB.lower", "Stoch.K", "Stoch.D", "ADX",
      "ADX+DI", "ADX-DI"],
    filters :=
      [⟨"type", .equal, .str "stock"⟩,
       ⟨"typespecs", .has, .str "common"⟩,
       ⟨"is_primary", .equal, .boolean true⟩,
       ⟨"RSI", .egreater, .num f.min_rsi⟩,
       ⟨"RSI", .eless, .num f.max_rsi⟩,
       ⟨"volume", .egreater, .num f.min_volume⟩,
       ⟨"ADX", .egreater, .num f.adx_min⟩],
    limit := f.limit,
    properties := [] }

/-- Lines 118–124: the three EMA checkboxes, each adding one clause. -/
def emaStep (f : FilterModel) (q : Query) : Query :=
  let q := if f.ema20 then addFilter q ⟨"close", .greater, .field "EMA20"⟩ else q
  let q := if f.ema50 then addFilter q ⟨"close", .greater, .field "EMA50"⟩ else q
  let q := if f.ema200 then addFilter q ⟨"close", .greater, .field "EMA200"⟩ else q
  q

/-- Lines 126–130: the ADX direction if/elif chain. -/
def trendStep (f : FilterModel) (q : Query) : Query :=
  if f.trend_direction = "Bullish (+DI > -DI)" then
    addFilter q ⟨"ADX+DI", .greater, .field "ADX-DI"⟩
  else if f.trend_direction = "Bearish (-DI > +DI)" then
    addFilter q ⟨"ADX-DI", .greater, .field "ADX+DI"⟩
  else q

/-- Lines 132–136: the Bollinger if/elif chain; `1.02 = 51/50`. -/
def bbStep (f : FilterModel) (q : Query) : Query :=
  if f.bb_condition = "Near Lower Band" then
    addFilter q ⟨"close", .eless, .fieldMul "BB.lower" (51 / 50)⟩
  else if f.bb_condition = "Above Upper Band" then
    addFilter q ⟨"close", .greater, .field "BB.upper"⟩
  else q

/-- Lines 138–146: the Stochastic if/elif chain. -/
def stochStep (f : FilterModel) (q : Query) : Query :=
  if f.stoch_mode = "Oversold (<20)" then
    addFilter q ⟨"Stoch.K", .less, .num 20⟩
  else if f.stoch_mode = "Overbought (>80)" then
    addFilter q ⟨"Stoch.K", .greater, .num 80⟩
  else if f.stoch_mode = "Bullish (%K > %D)" then
    addFilter q ⟨"Stoch.K", .greater, .field "Stoch.D"⟩
  else if f.stoch_mode = "Bearish (%K < %D)" then
    addFilter q ⟨"Stoch.K", .less, .field "Stoch.D"⟩
  else q

/-- Lines 148–149: `if preset: q = q.set_property("preset", preset)` —
Python truthiness on an `Optional[str]` is "not `None` and not empty". -/
def presetStep (preset : Option String) (q : Query) : Query :=
  match preset with
  | none => q
  | some s =>
      if s = "" then q
      else { q with properties := q.properties ++ [("preset", s)] }

/-- The complete query built inside `run_technical_scan` (lines 85–149),
just before `get_scanner_data` is called. -/
def scanQuery (preset : Option String) (f : FilterModel) : Query :=
  presetStep preset (stochStep f (bbStep f (trendStep f (emaStep f (baseQuery f)))))

/-! ## Result side: DataFrame, sorting, Excel serialization -/

/-- A cell value of a provider row: numeric, string, or missing (NaN/None);
missing values are possible and must be tolerated. -/
inductive Value where
  | num (q : ℚ)
  | str (s : String)
  | missing
  deriving DecidableEq

/-- A `pandas.DataFrame`: ordered column labels and ordered rows, each row a
list of cells parallel to the columns. -/
structure DataFrame where
  columns : List String
  rows : List (List Value)
  deriving DecidableEq

/-- `pd.DataFrame()` — the empty frame returned on both error paths
(lines 156, 159). -/
def emptyDataFrame : DataFrame := ⟨[], []⟩

/-- `df.empty` — true iff one of the axes has length 0. -/
def DataFrame.isEmpty (df : DataFrame) : Bool :=
  df.rows.isEmpty || df.columns.isEmpty

/-- Numeric reading of a cell, used as the sort key; the claims about the
sort concern frames whose key column is numeric. -/
def Value.asRat : Value → ℚ
  | .num q => q
  | _ => 0

/-- The sort key of a row: the numeric value in the column labelled `c`. -/
def colKey (df : DataFrame) (c : String) (row : List Value) : ℚ :=
  (row.getD (df.columns.indexOf c) Value.missing).asRat

/-- `df.sort_values(c, ascending=...)`: pandas argsorts the key column
ascending; for `ascending=False` it first reverses the values and index
and finally reverses the resulting permutation (`pandas/core/sorting.py`,
`nargsort`), so the descending result is
`reverse (ascending-sort (reverse rows))`.  The source passes no `kind`,
so pandas uses its default `kind='quicksort'` (numpy introsort), which
pandas documents as not stable: the program fixes which descending order
appears only up to the relative order of tied keys.  An executable
embedding must pick one concrete order, and this definition picks the
stable-argsort representative (a stable ascending insertion sort inside
pandas' double-reversal scheme).  That choice is exact for the
`mergesort`/`stable` kinds and for frames below numpy's insertion-sort
cutoff, but it is a modelling choice, not a program guarantee: no
confirmed claim in this file depends on the tie order this definition
produces — the claims proved about the sort use it only on inputs with
pairwise distinct keys, or through properties (descending sortedness,
which rows are sorted at all) that hold under every tie order. -/
def sort_values (df : DataFrame) (c : String) (ascending : Bool) : DataFrame :=
  if ascending then
    { df with rows := df.rows.insertionSort (fun a b => colKey df c a ≤ colKey df c b) }
  else
    { df with rows :=
        ((df.rows.reverse).insertionSort (fun a b => colKey df c a ≤ colKey df c b)).reverse }

/-- One sheet of an Excel workbook: its name and its cell grid. -/
structure Sheet where
  sheetName : String
  cells : List (List Value)
  deriving DecidableEq

/-- `df.to_excel(writer, index=False, sheet_name=...)` — one sheet holding a
header row of the column labels followed by the data rows in frame order
(no index column). -/
def to_excel (df : DataFrame) (sheet_name : String) : Sheet :=
  ⟨sheet_name, df.columns.map Value.str :: df.rows⟩

/-- Lines 178–180: the workbook written into the `io.BytesIO` buffer — a
single sheet named "Technical". -/
def write_excel (df : DataFrame) : List Sheet :=
  [to_excel df "Technical"]

/-! ## The scan function and its error handling -/

/-- Outcome of `q.get_scanner_data(timeout=30)`: data, an
`requests.exceptions.HTTPError`, or any other exception with its message. -/
inductive ProviderResult where
  | rows (df : DataFrame)
  | httpError
  | failure (msg : String)

/-- What `run_technical_scan` hands back to the caller: the `st.error`
messages it emitted and the returned frame. -/
structure ScanReturn where
  errors : List String
  df : DataFrame
  deriving DecidableEq

/-- `run_technical_scan(preset)` (lines 83–159): build the query, call the
provider, and map the two exception kinds to a user-visible `st.error`
message plus an empty frame.  The provider call is the only fallible step
inside the `try` block. -/
def run_technical_scan (preset : Option String) (f : FilterModel)
    (provider : Query → ProviderResult) : ScanReturn :=
  match provider (scanQuery preset f) with
  | .rows df => { errors := [], df := df }
  | .httpError =>
      { errors := ["TradingView rejected the request. Reduce filters."],
        df := emptyDataFrame }
  | .failure e =>
      { errors := ["Unexpected error: " ++ e], df := emptyDataFrame }

/-! ## The output block (lines 164–187) -/

/-- The download button: label, the workbook bytes handed to it, file name,
MIME type. -/
structure Download where
  label : String
  data : List Sheet
  fileName : String
  mime : String
  deriving DecidableEq

/-- Everything the output block renders for one scan. -/
structure RenderOutput where
  warning : Option String
  subheader : Option String
  table : Option DataFrame
  download : Option Download
  deriving DecidableEq

/-- The output block (lines 164–187), given the frame returned by
`run_technical_scan`: on `df.empty` only a warning is shown; otherwise the
table is displayed sorted by "ADX" descending, while the workbook is
serialized from `df` itself (line 180 writes `df`, not the sorted view). -/
def run_scan_output (df : DataFrame) : RenderOutput :=
  if df.isEmpty then
    { warning := some "No stocks matched the criteria.",
      subheader := none, table := none, download := none }
  else
    { warning := none,
      subheader := some ("📋 Results (" ++ toString df.rows.length ++ " stocks)"),
      table := some (sort_values df "ADX" false),
      download := some
        { label := "⬇️ Download Excel",
          data := write_excel df,
          fileName := "india_technical_screener.xlsx",
          mime := "application/vnd.openxmlformats-officedocument.spreadsheetml.sheet" } }

/-! ## Decomposition of the built query into clause groups -/

/-- The seven unconditional clauses of `baseQuery`, in source order. -/
def baseClauses (f : FilterModel) : List Clause :=
  [⟨"type", .equal, .str "stock"⟩,
   ⟨"typespecs", .has, .str "common"⟩,
   ⟨"is_primary", .equal, .boolean true⟩,
   ⟨"RSI", .egreater, .num f.min_rsi⟩,
   ⟨"RSI", .eless, .num f.max_rsi⟩,
   ⟨"volume", .egreater, .num f.min_volume⟩,
   ⟨"ADX", .egreater, .num f.adx_min⟩]

/-- The clauses contributed by the EMA checkboxes. -/
def emaClauses (f : FilterModel) : List Clause :=
  (if f.ema20 then [⟨"close", .greater, .field "EMA20"⟩] else [])
    ++ (if f.ema50 then [⟨"close", .greater, .field "EMA50"⟩] else [])
    ++ (if f.ema200 then [⟨"close", .greater, .field "EMA200"⟩] else [])

/-- The clause contributed by the trend-direction selector. -/
def trendClauses (f : FilterModel) : List Clause :=
  if f.trend_direction = "Bullish (+DI > -DI)" then
    [⟨"ADX+DI", .greater, .field "ADX-DI"⟩]
  else if f.trend_direction = "Bearish (-DI > +DI)" then
    [⟨"ADX-DI", .greater, .field "ADX+DI"⟩]
  else []

/-- The clause contributed by the Bollinger selector. -/
def bbClauses (f : FilterModel) : List Clause :=
  if f.bb_condition = "Near Lower Band" then
    [⟨"close", .eless, .fieldMul "BB.lower" (51 / 50)⟩]
  else if f.bb_condition = "Above Upper Band" then
    [⟨"close", .greater, .field "BB.upper"⟩]
  else []

/-- The clause contributed by the stochastic selector. -/
def stochClauses (f : FilterModel) : List Clause :=
  if f.stoch_mode = "Oversold (<20)" then
    [⟨"Stoch.K", .less, .num 20⟩]
  else if f.stoch_mode = "Overbought (>80)" then
    [⟨"Stoch.K", .greater, .num 80⟩]
  else if f.stoch_mode = "Bullish (%K > %D)" then
    [⟨"Stoch.K", .greater, .field "Stoch.D"⟩]
  else if f.stoch_mode = "Bearish (%K < %D)" then
    [⟨"Stoch.K", .less, .field "Stoch.D"⟩]
  else []

/-- The properties contributed by `presetStep`. -/
def presetProps : Option String → List (String × String)
  | none => []
  | some s => if s = "" then [] else [("preset", s)]

/-- An operand with its numeric constants erased. -/
def Operand.shape : Operand → Operand
  | .num _ => .num 0
  | .str s => .str s
  | .boolean b => .boolean b
  | .field n => .field n
  | .fieldMul n _ => .fieldMul n 0

/-- Shape of a clause with its numeric constant erased.  Every clause the
translator can emit has a shape distinct from every other's, independently of
the numeric filter parameters, which makes the absence of duplicate clauses a
statement about shapes. -/
def Clause.tag (c : Clause) : String × Op × Operand :=
  (c.left, c.op, c.right.shape)

/-- Every clause the translator can possibly emit, in emission order: the
seven base clauses followed by both/all alternatives of each conditional
group. -/
def masterClauses (f : FilterModel) : List Clause :=
  baseClauses f
    ++ [⟨"close", .greater, .field "EMA20"⟩,
        ⟨"close", .greater, .field "EMA50"⟩,
        ⟨"close", .greater, .field "EMA200"⟩]
    ++ [⟨"ADX+DI", .greater, .field "ADX-DI"⟩,
        ⟨"ADX-DI", .greater, .field "ADX+DI"⟩]
    ++ [⟨"close", .eless, .fieldMul "BB.lower" (51 / 50)⟩,
        ⟨"close", .greater, .field "BB.upper"⟩]
    ++ [⟨"Stoch.K", .less, .num 20⟩,
        ⟨"Stoch.K", .greater, .num 80⟩,
        ⟨"Stoch.K", .greater, .field "Stoch.D"⟩,
        ⟨"Stoch.K", .less, .field "Stoch.D"⟩]

/-- A clause over the momentum (RSI) column. -/
def Clause.isRSI (c : Clause) : Bool := c.left == "RSI"

/-- A clause whose right-hand operand mentions a Bollinger band column. -/
def Clause.isBand (c : Clause) : Bool :=
  match c.right with
  | .field n => n == "BB.lower" || n == "BB.upper"
  | .fieldMul n _ => n == "BB.lower" || n == "BB.upper"
  | _ => false

/-- A clause over the stochastic %K column. -/
def Clause.isStoch (c : Clause) : Bool := c.left == "Stoch.K"

/-- The §8 example FilterModel: momentum range [40,75], trend-strength-min
20, EMA flags 20 and 50 on, 200 off, direction Bullish, band Any,
oscillator Any, min volume 100000, limit 50 (preset None is passed
separately, as in the source). -/
def exampleFilter : FilterModel :=
  { min_rsi := 40, max_rsi := 75, adx_min := 20,
    trend_direction := "Bullish (+DI > -DI)",
    ema20 := true, ema50 := true, ema200 := false,
    bb_condition := "Any", stoch_mode := "Any",
    min_volume := 100000, limit := 50 }

/-- The example filter with an inverted momentum range (lower 80 > upper 20),
representable by the two independent sliders. -/
def invertedFilter : FilterModel :=
  { exampleFilter with min_rsi := 80, max_rsi := 20 }

/-- A two-row frame with distinct ADX values, in provider order:
A (ADX 10) before B (ADX 50). -/
def exportDF : DataFrame :=
  ⟨["name", "ADX"], [[.str "A", .num 10], [.str "B", .num 50]]⟩

/-- A frame with columns but no rows. -/
def headerOnlyDF : DataFrame := ⟨["name", "ADX"], []⟩

theorem emaStep_eq (f : FilterModel) (q : Query) :
    emaStep f q = { q with filters := q.filters ++ emaClauses f } := by
  unfold emaStep emaClauses addFilter
  by_cases h20 : f.ema20 <;> by_cases h50 : f.ema50 <;> by_cases h200 : f.ema200 <;>
    simp [h20, h50, h200]

theorem trendStep_eq (f : FilterModel) (q : Query) :
    trendStep f q = { q with filters := q.filters ++ trendClauses f } := by
  unfold trendStep trendClauses addFilter
  split_ifs <;> simp

theorem bbStep_eq (f : FilterModel) (q : Query) :
    bbStep f q = { q with filters := q.filters ++ bbClauses f } := by
  unfold bbStep bbClauses addFilter
  split_ifs <;> simp

theorem stochStep_eq (f : FilterModel) (q : Query) :
    stochStep f q = { q with filters := q.filters ++ stochClauses f } := by
  unfold stochStep stochClauses addFilter
  split_ifs <;> simp

theorem presetStep_eq (p : Option String) (q : Query) :
    presetStep p q = { q with properties := q.properties ++ presetProps p } := by
  cases p with
  | none => simp [presetStep, presetProps]
  | some s => by_cases h : s = "" <;> simp [presetStep, presetProps, h]

/-- The built query, decomposed: fixed markets, fields and limit, the filter
conjunction as base clauses followed by the conditional clause groups in
source order, and the preset property. -/
theorem scanQuery_eq (p : Option String) (f : FilterModel) :
    scanQuery p f =
      { markets := ["india"],
        select := ["name", "sector", "close", "change", "volume", "RSI", "EMA20",
          "EMA50", "EMA200", "BB.upper", "BB.lower", "Stoch.K", "Stoch.D", "ADX",
          "ADX+DI", "ADX-DI"],
        filters := baseClauses f ++ emaClauses f ++ trendClauses f
          ++ bbClauses f ++ stochClauses f,
        limit := f.limit,
        properties := presetProps p } := by
  unfold scanQuery
  rw [emaStep_eq, trendStep_eq, bbStep_eq, stochStep_eq, presetStep_eq]
  simp [baseQuery, baseClauses]

theorem emaClauses_length (f : FilterModel) :
    (emaClauses f).length =
      (if f.ema20 then 1 else 0) + (if f.ema50 then 1 else 0)
        + (if f.ema200 then 1 else 0) := by
  unfold emaClauses
  by_cases h20 : f.ema20 <;> by_cases h50 : f.ema50 <;> by_cases h200 : f.ema200 <;>
    simp [h20, h50, h200]

theorem trendClauses_length (f : FilterModel) (ht : f.trend_direction ∈ trendOptions) :
    (trendClauses f).length = if f.trend_direction = "Any" then 0 else 1 := by
  unfold trendClauses
  simp only [trendOptions, List.mem_cons, List.not_mem_nil, or_false] at ht
  rcases ht with h | h | h <;> rw [h] <;> decide

theorem bbClauses_length (f : FilterModel) (hb : f.bb_condition ∈ bbOptions) :
    (bbClauses f).length = if f.bb_condition = "Any" then 0 else 1 := by
  unfold bbClauses
  simp only [bbOptions, List.mem_cons, List.not_mem_nil, or_false] at hb
  rcases hb with h | h | h <;> rw [h] <;> decide

theorem stochClauses_length (f : FilterModel) (hs : f.stoch_mode ∈ stochOptions) :
    (stochClauses f).length = if f.stoch_mode = "Any" then 0 else 1 := by
  unfold stochClauses
  simp only [stochOptions, List.mem_cons, List.not_mem_nil, or_false] at hs
  rcases hs with h | h | h | h | h <;> rw [h] <;> decide

theorem trendClauses_length_le (f : FilterModel) : (trendClauses f).length ≤ 1 := by
  unfold trendClauses; split_ifs <;> simp

theorem bbClauses_length_le (f : FilterModel) : (bbClauses f).length ≤ 1 := by
  unfold bbClauses; split_ifs <;> simp

theorem stochClauses_length_le (f : FilterModel) : (stochClauses f).length ≤ 1 := by
  unfold stochClauses; split_ifs <;> simp

theorem emaClauses_length_le (f : FilterModel) : (emaClauses f).length ≤ 3 := by
  unfold emaClauses
  by_cases h20 : f.ema20 <;> by_cases h50 : f.ema50 <;> by_cases h200 : f.ema200 <;>
    simp [h20, h50, h200]

/-- An `if`-guarded singleton is a sublist of the singleton. -/
theorem ite_singleton_sublist (p : Prop) [Decidable p] (x : Clause) :
    List.Sublist (if p then [x] else []) [x] := by
  split_ifs
  exacts [List.Sublist.refl _, List.nil_sublist _]

theorem emaClauses_sublist (f : FilterModel) :
    List.Sublist (emaClauses f) [⟨"close", .greater, .field "EMA20"⟩,
      ⟨"close", .greater, .field "EMA50"⟩, ⟨"close", .greater, .field "EMA200"⟩] := by
  unfold emaClauses
  exact ((ite_singleton_sublist _ _).append (ite_singleton_sublist _ _)).append
    (ite_singleton_sublist _ _)

theorem trendClauses_sublist (f : FilterModel) :
    List.Sublist (trendClauses f) [⟨"ADX+DI", .greater, .field "ADX-DI"⟩,
      ⟨"ADX-DI", .greater, .field "ADX+DI"⟩] := by
  unfold trendClauses
  split_ifs
  exacts [List.Sublist.cons₂ _ (List.nil_sublist _),
    List.Sublist.cons _ (List.Sublist.refl _),
    List.nil_sublist _]

theorem bbClauses_sublist (f : FilterModel) :
    List.Sublist (bbClauses f) [⟨"close", .eless, .fieldMul "BB.lower" (51 / 50)⟩,
      ⟨"close", .greater, .field "BB.upper"⟩] := by
  unfold bbClauses
  split_ifs
  exacts [List.Sublist.cons₂ _ (List.nil_sublist _),
    List.Sublist.cons _ (List.Sublist.refl _),
    List.nil_sublist _]

theorem stochClauses_sublist (f : FilterModel) :
    List.Sublist (stochClauses f) [⟨"Stoch.K", .less, .num 20⟩,
      ⟨"Stoch.K", .greater, .num 80⟩,
      ⟨"Stoch.K", .greater, .field "Stoch.D"⟩,
      ⟨"Stoch.K", .less, .field "Stoch.D"⟩] := by
  unfold stochClauses
  split_ifs
  exacts [List.Sublist.cons₂ _ (List.nil_sublist _),
    List.Sublist.cons _ (List.Sublist.cons₂ _ (List.nil_sublist _)),
    List.Sublist.cons _ (List.Sublist.cons _ (List.Sublist.cons₂ _ (List.nil_sublist _))),
    List.Sublist.cons _ (List.Sublist.cons _ (List.Sublist.cons _ (List.Sublist.refl _))),
    List.nil_sublist _]

/-- The built conjunction is a sublist of the master list. -/
theorem scanQuery_filters_sublist (p : Option String) (f : FilterModel) :
    List.Sublist (scanQuery p f).filters (masterClauses f) := by
  rw [scanQuery_eq]
  exact ((((List.Sublist.refl (baseClauses f)).append
    (emaClauses_sublist f)).append (trendClauses_sublist f)).append
      (bbClauses_sublist f)).append (stochClauses_sublist f)

theorem masterClauses_nodup (f : FilterModel) : (masterClauses f).Nodup := by
  apply List.Nodup.of_map Clause.tag
  show (List.map Clause.tag (masterClauses f)).Nodup
  unfold masterClauses baseClauses
  simp only [List.map_append, List.map_cons, List.map_nil, Clause.tag, Operand.shape]
  decide

/-- No clause of the built conjunction is duplicated, for any filter model
and preset. -/
theorem scanQuery_filters_nodup (p : Option String) (f : FilterModel) :
    (scanQuery p f).filters.Nodup :=
  (masterClauses_nodup f).sublist (scanQuery_filters_sublist p f)

theorem baseClauses_length (f : FilterModel) : (baseClauses f).length = 7 := rfl

theorem scanQuery_properties (p : Option String) (f : FilterModel) :
    (scanQuery p f).properties = presetProps p := by
  rw [scanQuery_eq]

/-! ## Clause classifiers used to state the mapping-rule claims -/

theorem baseClauses_filter_isRSI (f : FilterModel) :
    (baseClauses f).filter Clause.isRSI =
      [⟨"RSI", .egreater, .num f.min_rsi⟩, ⟨"RSI", .eless, .num f.max_rsi⟩] := rfl

theorem baseClauses_filter_isBand (f : FilterModel) :
    (baseClauses f).filter Clause.isBand = [] := rfl

theorem baseClauses_filter_isStoch (f : FilterModel) :
    (baseClauses f).filter Clause.isStoch = [] := rfl

theorem emaClauses_filter_isRSI (f : FilterModel) :
    (emaClauses f).filter Clause.isRSI = [] := by
  unfold emaClauses; split_ifs <;> rfl

theorem emaClauses_filter_isBand (f : FilterModel) :
    (emaClauses f).filter Clause.isBand = [] := by
  unfold emaClauses; split_ifs <;> rfl

theorem emaClauses_filter_isStoch (f : FilterModel) :
    (emaClauses f).filter Clause.isStoch = [] := by
  unfold emaClauses; split_ifs <;> rfl

theorem trendClauses_filter_isRSI (f : FilterModel) :
    (trendClauses f).filter Clause.isRSI = [] := by
  unfold trendClauses; split_ifs <;> rfl

theorem trendClauses_filter_isBand (f : FilterModel) :
    (trendClauses f).filter Clause.isBand = [] := by
  unfold trendClauses; split_ifs <;> rfl

theorem trendClauses_filter_isStoch (f : FilterModel) :
    (trendClauses f).filter Clause.isStoch = [] := by
  unfold trendClauses; split_ifs <;> rfl

theorem bbClauses_filter_isRSI (f : FilterModel) :
    (bbClauses f).filter Clause.isRSI = [] := by
  unfold bbClauses; split_ifs <;> rfl

theorem bbClauses_filter_isBand (f : FilterModel) :
    (bbClauses f).filter Clause.isBand = bbClauses f := by
  unfold bbClauses; split_ifs <;> rfl

theorem bbClauses_filter_isStoch (f : FilterModel) :
    (bbClauses f).filter Clause.isStoch = [] := by
  unfold bbClauses; split_ifs <;> rfl

theorem stochClauses_filter_isRSI (f : FilterModel) :
    (stochClauses f).filter Clause.isRSI = [] := by
  unfold stochClauses; split_ifs <;> rfl

theorem stochClauses_filter_isBand (f : FilterModel) :
    (stochClauses f).filter Clause.isBand = [] := by
  unfold stochClauses; split_ifs <;> rfl

theorem stochClauses_filter_isStoch (f : FilterModel) :
    (stochClauses f).filter Clause.isStoch = stochClauses f := by
  unfold stochClauses; split_ifs <;> rfl

/-! ## Claims about the query translator -/

/-- **C1.** For every FilterModel (selector fields ranging over their
selectbox options), the number of predicate clauses in the built Query is
the 7 fixed base predicates plus exactly one clause per enabled
non-"Any" toggle (each EMA flag, a non-Any trend direction, a non-Any band
condition, a non-Any oscillator mode); no clause is duplicated and none is
dropped.  For the §8 example FilterModel the clause list is exactly the
enumeration of the §4.1 rules and its total count is 10 = 6 + 4: the five
spec base predicates count as 6 clauses (the momentum range contributes its
two bounds) and the 4 extra clauses are the trend-strength floor, the two
enabled moving-average clauses and the directional-bullish clause. -/
theorem claim_C1 (p : Option String) (f : FilterModel)
    (ht : f.trend_direction ∈ trendOptions)
    (hb : f.bb_condition ∈ bbOptions)
    (hs : f.stoch_mode ∈ stochOptions) :
    ((scanQuery p f).filters.length =
        7 + ((if f.ema20 then 1 else 0) + (if f.ema50 then 1 else 0)
          + (if f.ema200 then 1 else 0)
          + (if f.trend_direction = "Any" then 0 else 1)
          + (if f.bb_condition = "Any" then 0 else 1)
          + (if f.stoch_mode = "Any" then 0 else 1))
      ∧ (scanQuery p f).filters.Nodup)
    ∧ (scanQuery (preset_value "None") exampleFilter).filters =
        [⟨"type", .equal, .str "stock"⟩,
         ⟨"typespecs", .has, .str "common"⟩,
         ⟨"is_primary", .equal, .boolean true⟩,
         ⟨"RSI", .egreater, .num 40⟩,
         ⟨"RSI", .eless, .num 75⟩,
         ⟨"volume", .egreater, .num 100000⟩,
         ⟨"ADX", .egreater, .num 20⟩,
         ⟨"close", .greater, .field "EMA20"⟩,
         ⟨"close", .greater, .field "EMA50"⟩,
         ⟨"ADX+DI", .greater, .field "ADX-DI"⟩]
    ∧ (scanQuery (preset_value "None") exampleFilter).filters.length = 6 + 4 := by
  refine ⟨⟨?_, scanQuery_filters_nodup p f⟩, rfl, rfl⟩
  rw [scanQuery_eq]
  simp only [List.length_append]
  rw [baseClauses_length, emaClauses_length, trendClauses_length f ht,
    bbClauses_length f hb, stochClauses_length f hs]
  ring

/-- Witness for C1 at the §8 example FilterModel. -/
theorem claim_C1_witness :
    (scanQuery (preset_value "None") exampleFilter).filters.length =
      7 + ((if exampleFilter.ema20 then 1 else 0)
        + (if exampleFilter.ema50 then 1 else 0)
        + (if exampleFilter.ema200 then 1 else 0)
        + (if exampleFilter.trend_direction = "Any" then 0 else 1)
        + (if exampleFilter.bb_condition = "Any" then 0 else 1)
        + (if exampleFilter.stoch_mode = "Any" then 0 else 1)) :=
  ((claim_C1 (preset_value "None") exampleFilter (by decide) (by decide)
    (by decide)).1).1

/-- **C7.** For every FilterModel and preset, the two momentum clauses of
the built Query are exactly `RSI ≥ min_rsi` and `RSI ≤ max_rsi` with the
bounds passed through unmodified — no clamping, swapping or other change —
and they are the only RSI clauses; in particular an inverted pair
(lower 80 > upper 20) is emitted unmodified. -/
theorem claim_C7 (p : Option String) (f : FilterModel) :
    (scanQuery p f).filters.filter Clause.isRSI =
        [⟨"RSI", .egreater, .num f.min_rsi⟩, ⟨"RSI", .eless, .num f.max_rsi⟩]
    ∧ (scanQuery p invertedFilter).filters.filter Clause.isRSI =
        [⟨"RSI", .egreater, .num 80⟩, ⟨"RSI", .eless, .num 20⟩] := by
  have key : ∀ g : FilterModel, (scanQuery p g).filters.filter Clause.isRSI =
      [⟨"RSI", .egreater, .num g.min_rsi⟩, ⟨"RSI", .eless, .num g.max_rsi⟩] := by
    intro g
    rw [scanQuery_eq]
    simp only [List.filter_append, baseClauses_filter_isRSI,
      emaClauses_filter_isRSI, trendClauses_filter_isRSI,
      bbClauses_filter_isRSI, stochClauses_filter_isRSI, List.append_nil]
  exact ⟨key f, key invertedFilter⟩

/-- **C8.** For every FilterModel and preset, the Bollinger-band clauses of
the built Query are exactly: `close ≤ BB.lower × 51/50` (a 2% tolerance,
`51/50 = 1.02`, with the non-strict `eless` comparison) when the condition
is "Near Lower Band", `close > BB.upper` (strict `greater`) when it is
"Above Upper Band", and none otherwise — in particular none for "Any". -/
theorem claim_C8 (p : Option String) (f : FilterModel) :
    (scanQuery p f).filters.filter Clause.isBand =
      (if f.bb_condition = "Near Lower Band" then
        [⟨"close", .eless, .fieldMul "BB.lower" (51 / 50)⟩]
      else if f.bb_condition = "Above Upper Band" then
        [⟨"close", .greater, .field "BB.upper"⟩]
      else []) := by
  rw [scanQuery_eq]
  simp only [List.filter_append, baseClauses_filter_isBand,
    emaClauses_filter_isBand, trendClauses_filter_isBand,
    bbClauses_filter_isBand, stochClauses_filter_isBand,
    List.nil_append, List.append_nil]
  rfl

/-- **C9.** For every FilterModel and preset, the stochastic clauses of the
built Query are exactly: `Stoch.K < 20` for "Oversold", `Stoch.K > 80` for
"Overbought", `Stoch.K > Stoch.D` for the bullish cross, `Stoch.K < Stoch.D`
for the bearish cross, and none otherwise — in particular none for "Any". -/
theorem claim_C9 (p : Option String) (f : FilterModel) :
    (scanQuery p f).filters.filter Clause.isStoch =
      (if f.stoch_mode = "Oversold (<20)" then
        [⟨"Stoch.K", .less, .num 20⟩]
      else if f.stoch_mode = "Overbought (>80)" then
        [⟨"Stoch.K", .greater, .num 80⟩]
      else if f.stoch_mode = "Bullish (%K > %D)" then
        [⟨"Stoch.K", .greater, .field "Stoch.D"⟩]
      else if f.stoch_mode = "Bearish (%K < %D)" then
        [⟨"Stoch.K", .less, .field "Stoch.D"⟩]
      else []) := by
  rw [scanQuery_eq]
  simp only [List.filter_append, baseClauses_filter_isStoch,
    emaClauses_filter_isStoch, trendClauses_filter_isStoch,
    bbClauses_filter_isStoch, stochClauses_filter_isStoch,
    List.nil_append, List.append_nil]
  rfl

/-- **C10.** For every FilterModel (arbitrary selector strings) and preset,
the built Query starts with the same 7 base clauses — instrument type,
subtype, primary listing, the two momentum bounds, the volume floor, and
the trend-strength floor `ADX ≥ adx_min` (present even when `adx_min` is 0,
since the statement holds for every rational `adx_min`) — the total clause
count lies between 7 and 13, and the preset property is attached if and
only if the selected preset label maps to a non-`None` value in `PRESETS`. -/
theorem claim_C10 (p : Option String) (f : FilterModel) :
    (scanQuery p f).filters.take 7 =
      [⟨"type", .equal, .str "stock"⟩,
       ⟨"typespecs", .has, .str "common"⟩,
       ⟨"is_primary", .equal, .boolean true⟩,
       ⟨"RSI", .egreater, .num f.min_rsi⟩,
       ⟨"RSI", .eless, .num f.max_rsi⟩,
       ⟨"volume", .egreater, .num f.min_volume⟩,
       ⟨"ADX", .egreater, .num f.adx_min⟩]
    ∧ (7 ≤ (scanQuery p f).filters.length ∧ (scanQuery p f).filters.length ≤ 13)
    ∧ ∀ label ∈ PRESETS.map Prod.fst,
        (scanQuery (preset_value label) f).properties =
          (match preset_value label with
           | none => []
           | some s => [("preset", s)])
        ∧ ((scanQuery (preset_value label) f).properties ≠ [] ↔
            preset_value label ≠ none) := by
  refine ⟨?_, ?_, ?_⟩
  · rw [scanQuery_eq]
    show (baseClauses f ++ emaClauses f ++ trendClauses f ++ bbClauses f
      ++ stochClauses f).take 7 = _
    simp only [List.append_assoc]
    exact List.take_left' rfl
  · have h1 := emaClauses_length_le f
    have h2 := trendClauses_length_le f
    have h3 := bbClauses_length_le f
    have h4 := stochClauses_length_le f
    rw [scanQuery_eq]
    simp only [List.length_append, baseClauses_length]
    omega
  · intro label hl
    simp only [PRESETS, List.map_cons, List.map_nil, List.mem_cons,
      List.not_mem_nil, or_false] at hl
    rcases hl with h | h | h | h | h <;> subst h <;>
      exact ⟨by rw [scanQuery_properties]; rfl, by rw [scanQuery_properties]; decide⟩

/-- Witness for C10: with the "Top Gainers" preset selected, the preset
property is attached with value "gainers". -/
theorem claim_C10_witness :
    (scanQuery (preset_value "Top Gainers") exampleFilter).properties =
      [("preset", "gainers")] :=
  ((claim_C10 none exampleFilter).2.2 "Top Gainers" (by decide)).1

/-! ## Claims about the result presenter -/

/-- **C2 (counterexample).** On the concrete two-row ResultSet `exportDF`
the displayed table is sorted descending by ADX (B before A), but the
workbook handed to the download button serializes the rows in
provider-returned order (A before B): the download is not the serialization
of the displayed sorted view, refuting the claim that the spreadsheet rows
appear in the displayed order. -/
theorem claim_C2_cex :
    (run_scan_output exportDF).table =
        some ⟨["name", "ADX"], [[.str "B", .num 50], [.str "A", .num 10]]⟩
    ∧ (run_scan_output exportDF).download =
        some { label := "⬇️ Download Excel",
               data := [⟨"Technical",
                 [[.str "name", .str "ADX"],
                  [.str "A", .num 10], [.str "B", .num 50]]⟩],
               fileName := "india_technical_screener.xlsx",
               mime := "application/vnd.openxmlformats-officedocument.spreadsheetml.sheet" }
    ∧ ¬ ((run_scan_output exportDF).download =
        some { label := "⬇️ Download Excel",
               data := [to_excel (sort_values exportDF "ADX" false) "Technical"],
               fileName := "india_technical_screener.xlsx",
               mime := "application/vnd.openxmlformats-officedocument.spreadsheetml.sheet" }) := by
  refine ⟨rfl, rfl, ?_⟩
  decide

/-- **C2 (amended).** For every non-empty ResultSet, the presenter displays
the table sorted descending by the ADX field (the displayed rows are sorted
under the descending-key relation), but the spreadsheet workbook is
serialized from the ResultSet itself: the exported rows appear in
provider-returned order, not in the displayed order. -/
theorem claim_C2 (df : DataFrame) (h : df.isEmpty = false) :
    (run_scan_output df).table = some (sort_values df "ADX" false)
    ∧ List.Sorted (fun a b => colKey df "ADX" b ≤ colKey df "ADX" a)
        (sort_values df "ADX" false).rows
    ∧ (run_scan_output df).download =
        some { label := "⬇️ Download Excel",
               data := [⟨"Technical", df.columns.map Value.str :: df.rows⟩],
               fileName := "india_technical_screener.xlsx",
               mime := "application/vnd.openxmlformats-officedocument.spreadsheetml.sheet" } := by
  refine ⟨by simp [run_scan_output, h], ?_, by simp [run_scan_output, h, write_excel, to_excel]⟩
  have ht : IsTotal (List Value) (fun a b => colKey df "ADX" a ≤ colKey df "ADX" b) :=
    ⟨fun a b => le_total _ _⟩
  have htr : IsTrans (List Value) (fun a b => colKey df "ADX" a ≤ colKey df "ADX" b) :=
    ⟨fun a b c => le_trans⟩
  have hs := List.sorted_insertionSort
    (fun a b => colKey df "ADX" a ≤ colKey df "ADX" b) df.rows.reverse
  show List.Sorted _
    (((df.rows.reverse).insertionSort
      (fun a b => colKey df "ADX" a ≤ colKey df "ADX" b)).reverse)
  exact List.pairwise_reverse.mpr hs

/-- Witness for C2 (amended) at `exportDF`. -/
theorem claim_C2_witness :
    exportDF.isEmpty = false
    ∧ (run_scan_output exportDF).table = some (sort_values exportDF "ADX" false) :=
  ⟨rfl, (claim_C2 exportDF rfl).1⟩

/-- **C4.** For every ResultSet with at least one display column whose rows
all match the column count, serialization produces exactly one sheet whose
cell grid has one header row (the column labels, in the given order)
followed by one row per result — N+1 rows and M columns — and it succeeds
on zero-row input, yielding the header-only sheet rather than raising
(serialization is a total function in the model; the source's `to_excel`
likewise accepts an empty frame). -/
theorem claim_C4 (df : DataFrame) (hM : 1 ≤ df.columns.length)
    (hrows : ∀ r ∈ df.rows, r.length = df.columns.length) :
    (write_excel df).length = 1
    ∧ (to_excel df "Technical").cells.length = df.rows.length + 1
    ∧ (to_excel df "Technical").cells.head? = some (df.columns.map Value.str)
    ∧ (∀ row ∈ (to_excel df "Technical").cells, row.length = df.columns.length)
    ∧ (df.rows = [] → (to_excel df "Technical").cells = [df.columns.map Value.str]) := by
  refine ⟨rfl, by simp [to_excel], rfl, ?_, ?_⟩
  · intro row hrow
    simp only [to_excel, List.mem_cons] at hrow
    rcases hrow with h | h
    · subst h; simp
    · exact hrows row h
  · intro h
    simp [to_excel, h]

/-- Witness for C4 at the zero-row frame `headerOnlyDF`. -/
theorem claim_C4_witness :
    1 ≤ headerOnlyDF.columns.length
    ∧ (write_excel headerOnlyDF).length = 1
    ∧ (to_excel headerOnlyDF "Technical").cells.length =
        headerOnlyDF.rows.length + 1 :=
  ⟨by decide, (claim_C4 headerOnlyDF (by decide) (by decide)).1,
    (claim_C4 headerOnlyDF (by decide) (by decide)).2.1⟩

/-- **C5.** For every preset, filter model and provider behaviour: an HTTP
error from the provider yields exactly the actionable
"TradingView rejected the request. Reduce filters." message and the empty
frame; any other exception yields a message carrying the underlying error
text verbatim and the empty frame; a successful call emits no error.  In
every case `run_technical_scan` returns (the model is a total function):
no error escalates out of it, and neither failure kind is silent — each
emits its message.  There is no retry: the provider is consulted exactly
once, on the single query the translator built. -/
theorem claim_C5 (p : Option String) (f : FilterModel)
    (provider : Query → ProviderResult) :
    (provider (scanQuery p f) = ProviderResult.httpError →
      run_technical_scan p f provider =
        { errors := ["TradingView rejected the request. Reduce filters."],
          df := emptyDataFrame })
    ∧ (∀ e, provider (scanQuery p f) = ProviderResult.failure e →
        run_technical_scan p f provider =
          { errors := ["Unexpected error: " ++ e], df := emptyDataFrame })
    ∧ (∀ r, provider (scanQuery p f) = ProviderResult.rows r →
        run_technical_scan p f provider = { errors := [], df := r })
    ∧ emptyDataFrame.isEmpty = true := by
  refine ⟨?_, ?_, ?_, rfl⟩
  · intro h; unfold run_technical_scan; rw [h]
  · intro e h; unfold run_technical_scan; rw [h]
  · intro r h; unfold run_technical_scan; rw [h]

/-- Witness for C5 with a provider that always raises an HTTP error. -/
theorem claim_C5_witness :
    run_technical_scan none exampleFilter (fun _ => ProviderResult.httpError) =
      { errors := ["TradingView rejected the request. Reduce filters."],
        df := emptyDataFrame } :=
  (claim_C5 none exampleFilter (fun _ => ProviderResult.httpError)).1 rfl

/-- **C6.** For every scan whose returned frame is empty, the output block
short-circuits: no table is rendered (hence nothing is sorted), no
subheader is shown, no workbook is serialized and no download button is
offered, and the distinct "No stocks matched the criteria." warning is
emitted.  (This variant computes no derived column for any input.) -/
theorem claim_C6 (df : DataFrame) (h : df.isEmpty = true) :
    run_scan_output df =
      { warning := some "No stocks matched the criteria.",
        subheader := none, table := none, download := none } := by
  simp [run_scan_output, h]

/-- Witness for C6 at the empty frame. -/
theorem claim_C6_witness :
    run_scan_output emptyDataFrame =
      { warning := some "No stocks matched the criteria.",
        subheader := none, table := none, download := none } :=
  claim_C6 emptyDataFrame rfl

end TechnicalTV
